import Mathlib

-- Verification of the Xeno-Ai chat client against its specification.
-- The TypeScript sources (src/App.tsx, src/services/gemini.ts,
-- src/components/Sidebar.tsx, src/types.ts) are shallowly embedded below:
-- React state updates become explicit state passing on an `AppState` record,
-- the nondeterministic id generator and the remote Gemini calls become
-- explicit oracle parameters, and fallible remote calls return `Except`.

namespace XenoAi

-- ### JavaScript primitives used by the sources
-- Each helper mirrors the semantics of the JS operation named in its comment,
-- restricted to the values the app actually produces (ASCII-ish strings,
-- `string | null | undefined`, `boolean | undefined`).

-- JS truthiness of a `boolean | undefined` value (`!!x`).
def boolTruthy : Option Bool → Bool
  | none => false
  | some b => b

-- JS truthiness of a `string | null` value: null and "" are falsy.
def strTruthy : Option String → Bool
  | none => false
  | some s => !(s == "")

-- JS `a || b` where `a : string | undefined` and `b : string`.
def jsOrStr : Option String → String → String
  | none, b => b
  | some s, b => if s == "" then b else s

-- JS `x || undefined` for `x : string | null`.
def strOrUndefined (x : Option String) : Option String :=
  if strTruthy x then x else none

-- JS `s.toLowerCase()` (ASCII case mapping).
def jsToLowerCase (s : String) : String :=
  String.mk (s.data.map Char.toLower)

-- JS `s.startsWith(p)`.
def jsStartsWith (s p : String) : Bool :=
  p.data.isPrefixOf s.data

-- Character-list core of JS `String.prototype.includes`.
def charsInclude (needle : List Char) : List Char → Bool
  | [] => needle.isEmpty
  | c :: cs => needle.isPrefixOf (c :: cs) || charsInclude needle cs

-- JS `hay.includes(needle)`.
def jsIncludes (hay needle : String) : Bool :=
  charsInclude needle.data hay.data

-- JS `s.trim()`.
def jsTrim (s : String) : String :=
  String.mk (((s.data.dropWhile Char.isWhitespace).reverse.dropWhile Char.isWhitespace).reverse)

-- JS `s.substring(0, n)`.
def jsSubstring0 (s : String) (n : Nat) : String :=
  String.mk (s.data.take n)

-- ### Data model (src/types.ts)

inductive MessageRole where
  | USER
  | MODEL
deriving DecidableEq

inductive MessageType where
  | TEXT
  | IMAGE
deriving DecidableEq

structure ChatMessage where
  id : String
  role : MessageRole
  text : String
  imageUrl : Option String
  type : MessageType
  timestamp : Nat
  isGenerating : Option Bool
  originalPrompt : Option String
deriving DecidableEq

structure ChatSession where
  id : String
  title : String
  messages : List ChatMessage
  createdAt : Nat
  updatedAt : Nat
  isPinned : Option Bool
deriving DecidableEq

-- ### External AI gateway (src/services/gemini.ts)

-- Shape of the `generateImages` remote response:
-- `response.generatedImages[i].image.imageBytes`.
structure GeneratedImageData where
  imageBytes : String
deriving DecidableEq

structure GeneratedImage where
  image : GeneratedImageData
deriving DecidableEq

structure GenerateImagesResponse where
  generatedImages : Option (List GeneratedImage)
deriving DecidableEq

-- `generateImageWithGemini(prompt)`: awaits the remote `generateImages` call
-- (modelled by the `remote` oracle applied to the prompt).  On success it
-- returns a data URI for the first image, or null when no image came back.
-- Its `catch` block logs and RE-THROWS (`throw error`), modelled by
-- propagating `Except.error`.
def generateImageWithGemini (prompt : String)
    (remote : String → Except Unit GenerateImagesResponse) : Except Unit (Option String) :=
  match remote prompt with
  | Except.error e => Except.error e
  | Except.ok response =>
      match response.generatedImages with
      | some (first :: _) => Except.ok (some ("data:image/jpeg;base64," ++ first.image.imageBytes))
      | _ => Except.ok none

-- `sendMessageToGemini(history, currentMessage, currentImage)`: awaits the
-- remote `generateContent` call (the `remote` oracle carries `response.text`,
-- an optional string) and never lets an error escape: its `catch` returns a
-- fixed fallback string, and a missing or empty `response.text` is replaced
-- by another fixed string.  The history parameters shape the request payload
-- only, so they do not influence the returned value in this model.
def sendMessageToGemini (history : List ChatMessage) (currentMessage : String)
    (currentImage : Option String) (remote : Except Unit (Option String)) : String :=
  match history, currentMessage, currentImage, remote with
  | _, _, _, Except.error _ => "Sorry, I encountered an error connecting to my neural link. 🧠❌"
  | _, _, _, Except.ok (some s) =>
      if s == "" then "I\x27m having trouble speaking right now." else s
  | _, _, _, Except.ok none => "I\x27m having trouble speaking right now."

-- `isImageGenerationRequest(text)` (src/services/gemini.ts lines 126-135).
def isImageGenerationRequest (text : String) : Bool :=
  let lower := jsToLowerCase text
  jsStartsWith lower "generate image" ||
  jsStartsWith lower "create image" ||
  jsStartsWith lower "draw" ||
  jsStartsWith lower "imagine" ||
  jsIncludes lower "make an image of"

-- ### Application state and handlers (src/App.tsx)

-- The React state touched by the handlers under verification.
structure AppState where
  sessions : List ChatSession
  currentSessionId : Option String
  input : String
  selectedImage : Option String
  isTyping : Bool
  showImageGenGuide : Bool
deriving DecidableEq

-- The session literal built by `handleNewChat`.
def newChatSession (newId : String) (now : Nat) : ChatSession :=
  { id := newId, title := "New Conversation", messages := [], createdAt := now,
    updatedAt := now, isPinned := none }

-- `handleNewChat` (App.tsx lines 89-101); the random `generateId()` result and
-- `Date.now()` are the `newId` and `now` oracle parameters.
def handleNewChat (newId : String) (now : Nat) (st : AppState) : AppState :=
  { st with sessions := newChatSession newId now :: st.sessions,
            currentSessionId := some newId,
            showImageGenGuide := false }

-- `handleDeleteSession` (App.tsx lines 103-106).
def handleDeleteSession (id : String) (st : AppState) : AppState :=
  { st with sessions := st.sessions.filter (fun s => !(s.id == id)),
            currentSessionId :=
              if st.currentSessionId == some id then none else st.currentSessionId }

-- Per-session updater of `handlePinSession`: toggle the pinned flag of the
-- session with the matching id (`!s.isPinned` on the optional boolean field is
-- JS negation of its truthiness).
def pinUpdate (id : String) (s : ChatSession) : ChatSession :=
  if s.id == id then { s with isPinned := some (!(boolTruthy s.isPinned)) } else s

-- `handlePinSession` (App.tsx lines 108-112).
def handlePinSession (id : String) (st : AppState) : AppState :=
  { st with sessions := st.sessions.map (pinUpdate id) }

-- The user message literal built by `handleSend`.
def userMessage (genId : String) (textToSend : String) (selectedImage : Option String)
    (now : Nat) : ChatMessage :=
  { id := genId, role := MessageRole.USER, text := textToSend,
    imageUrl := strOrUndefined selectedImage, type := MessageType.TEXT,
    timestamp := now, isGenerating := none, originalPrompt := none }

-- The hard-coded error message literal built in the catch block of `handleSend`.
def errorMessage (genId : String) (now : Nat) : ChatMessage :=
  { id := genId, role := MessageRole.MODEL,
    text := "My neural link was disrupted. Please try again. ⚠️",
    imageUrl := none, type := MessageType.TEXT, timestamp := now,
    isGenerating := none, originalPrompt := none }

-- Per-session updater of the first `setSessions` call in `handleSend`
-- (App.tsx lines 181-192): append the user message to the target session,
-- retitling it when this is its first message.
def sendUserUpdate (target textToSend : String) (userMsg : ChatMessage) (now : Nat)
    (s : ChatSession) : ChatSession :=
  if s.id == target then
    { s with
      title := if s.messages.length == 0 then
                 (if jsSubstring0 textToSend 30 == "" then "Image Analysis"
                  else jsSubstring0 textToSend 30)
               else s.title,
      messages := s.messages ++ [userMsg],
      updatedAt := now }
  else s

def appendUserMsg (target textToSend : String) (userMsg : ChatMessage) (now : Nat)
    (sessions : List ChatSession) : List ChatSession :=
  sessions.map (sendUserUpdate target textToSend userMsg now)

-- Per-session updater of the second `setSessions` call (success path,
-- lines 231-241).
def sendBotUpdate (target : String) (botMsg : ChatMessage) (now : Nat)
    (s : ChatSession) : ChatSession :=
  if s.id == target then { s with messages := s.messages ++ [botMsg], updatedAt := now }
  else s

def appendBotMsg (target : String) (botMsg : ChatMessage) (now : Nat)
    (sessions : List ChatSession) : List ChatSession :=
  sessions.map (sendBotUpdate target botMsg now)

-- Per-session updater of the `setSessions` call in the catch block of `handleSend`
-- (lines 251-253); note it does not touch `updatedAt`.
def sendErrorUpdate (target : String) (errMsg : ChatMessage) (s : ChatSession) : ChatSession :=
  if s.id == target then { s with messages := s.messages ++ [errMsg] } else s

def appendErrorMsg (target : String) (errMsg : ChatMessage)
    (sessions : List ChatSession) : List ChatSession :=
  sessions.map (sendErrorUpdate target errMsg)

-- `handleSend` (App.tsx lines 140-257).  Oracles: `g1` is the `generateId()`
-- value used for a freshly created session, `g2`/`g3` the ids of the user and
-- model messages, `now` stands for `Date.now()`, `imagesRemote` is the remote
-- image-generation endpoint and `chatRemote` the remote chat endpoint (fed the
-- same history/message/image data the source passes to `sendMessageToGemini`).
-- When `currentSessionId` is null the guard at line 144 creates one session
-- and returns; the second session-creation branch at lines 163-174 of the
-- source is therefore unreachable and has no counterpart here.
def handleSend (overrideText : Option String) (isImageGenMode : Bool)
    (g1 g2 g3 : String) (now : Nat)
    (imagesRemote : String → Except Unit GenerateImagesResponse)
    (chatRemote : List ChatMessage → String → Option String → Except Unit (Option String))
    (st : AppState) : AppState :=
  let textToSend := jsOrStr overrideText st.input
  match st.currentSessionId with
  | none =>
      let newSession : ChatSession :=
        { id := g1,
          title := if jsSubstring0 textToSend 30 == "" then "New Chat"
                   else jsSubstring0 textToSend 30,
          messages := [], createdAt := now, updatedAt := now, isPinned := none }
      { st with sessions := newSession :: st.sessions,
                currentSessionId := some newSession.id }
  | some target =>
      if (jsTrim textToSend == "") && !(strTruthy st.selectedImage) then st
      else
        let userMsg := userMessage g2 textToSend st.selectedImage now
        let sessions1 := appendUserMsg target textToSend userMsg now st.sessions
        let tryResult : Except Unit (String × Option String × MessageType × Option String) :=
          if isImageGenMode || isImageGenerationRequest textToSend then
            match generateImageWithGemini textToSend imagesRemote with
            | Except.error e => Except.error e
            | Except.ok (some b64) =>
                Except.ok ("Here is the image you asked for! 🎨 \n\nPrompt: \"" ++ textToSend ++ "\"",
                  some b64, MessageType.IMAGE, some textToSend)
            | Except.ok none =>
                Except.ok ("I tried to generate that image, but my neural canvas is blurry right now. Please try again.",
                  none, MessageType.TEXT, none)
          else
            let history := match st.sessions.find? (fun s => s.id == target) with
              | some sd => sd.messages
              | none => []
            Except.ok (sendMessageToGemini history textToSend userMsg.imageUrl
                (chatRemote history textToSend userMsg.imageUrl),
              none, MessageType.TEXT, none)
        let sessions2 :=
          match tryResult with
          | Except.ok (respText, respImage, msgType, origPrompt) =>
              appendBotMsg target
                { id := g3, role := MessageRole.MODEL, text := respText, imageUrl := respImage,
                  type := msgType, timestamp := now, isGenerating := none,
                  originalPrompt := origPrompt } now sessions1
          | Except.error _ => appendErrorMsg target (errorMessage g3 now) sessions1
        { st with sessions := sessions2, input := "", selectedImage := none,
                  isTyping := false, showImageGenGuide := false }

-- ### Sidebar list (src/components/Sidebar.tsx lines 31-38)

-- `comparator(a, b) <= 0` for the sort comparator used on the filtered list:
-- pinned sessions first, then descending `updatedAt`.
def sessionCompareLe (a b : ChatSession) : Bool :=
  if boolTruthy a.isPinned && !(boolTruthy b.isPinned) then true
  else if !(boolTruthy a.isPinned) && boolTruthy b.isPinned then false
  else decide (b.updatedAt ≤ a.updatedAt)

def sessionLe (a b : ChatSession) : Prop :=
  sessionCompareLe a b = true

instance : DecidableRel sessionLe := fun a b =>
  inferInstanceAs (Decidable (sessionCompareLe a b = true))

instance : IsTotal ChatSession sessionLe := by
  constructor
  intro a b
  unfold sessionLe sessionCompareLe
  cases hpa : boolTruthy a.isPinned <;> cases hpb : boolTruthy b.isPinned <;>
    simp [hpa, hpb] <;> omega

instance : IsTrans ChatSession sessionLe := by
  constructor
  intro a b c hab hbc
  unfold sessionLe sessionCompareLe at hab hbc ⊢
  cases hpa : boolTruthy a.isPinned <;> cases hpb : boolTruthy b.isPinned <;>
    cases hpc : boolTruthy c.isPinned <;> simp_all <;> omega

-- `filteredSessions`: case-insensitive title filter by the search term, then
-- `Array.prototype.sort` with the comparator above (modelled by a stable sort
-- with respect to `sessionLe`, matching the ECMAScript sort contract for a
-- consistent comparator).
def filteredSessions (sessions : List ChatSession) (searchTerm : String) : List ChatSession :=
  List.insertionSort sessionLe
    (sessions.filter (fun s => jsIncludes (jsToLowerCase s.title) (jsToLowerCase searchTerm)))

-- ### Shared concrete inputs for witnesses and counterexamples

def mkState (sessions : List ChatSession) (cur : Option String) (inp : String) : AppState :=
  { sessions := sessions, currentSessionId := cur, input := inp,
    selectedImage := none, isTyping := false, showImageGenGuide := false }

def sampleSessionA : ChatSession :=
  { id := "a", title := "alpha", messages := [], createdAt := 1, updatedAt := 1,
    isPinned := none }

def sampleSessionB : ChatSession :=
  { id := "b", title := "beta", messages := [], createdAt := 2, updatedAt := 2,
    isPinned := none }

-- ### Theorems

/-- Claim C1 (code_bug evidence): invoking `handleSend` with the non-empty
input "hello", no selected image and no current session creates exactly one
session, titled from the first 30 characters of the input, but returns without
appending the user message: the message list of the created session is empty, the
input is not cleared, and no gateway call is reflected in any session.  The
claim (and the spec) say the user message is appended to the new session;
the early `return` in the guard of `handleSend` (App.tsx line 156) drops it,
and the session-creating fall-through at lines 163-174 is unreachable. -/
theorem C1_send_without_session_drops_message :
    (handleSend none false "s1" "m1" "m2" 0 (fun _ => Except.ok ⟨none⟩)
        (fun _ _ _ => Except.ok none) (mkState [] none "hello")).sessions =
      [{ id := "s1", title := "hello", messages := [], createdAt := 0, updatedAt := 0,
         isPinned := none }] ∧
    (handleSend none false "s1" "m1" "m2" 0 (fun _ => Except.ok ⟨none⟩)
        (fun _ _ _ => Except.ok none) (mkState [] none "hello")).input = "hello" := by
  constructor <;> decide

/-- Claim C3: `handleDeleteSession id` removes every session whose identifier
is `id` and keeps all the others unchanged; the current-session pointer is
nulled exactly when it pointed at the deleted identifier and is untouched
otherwise. -/
theorem C3_delete_session (id : String) (st : AppState) :
    (∀ s ∈ (handleDeleteSession id st).sessions, s.id ≠ id) ∧
    (∀ s ∈ st.sessions, s.id ≠ id → s ∈ (handleDeleteSession id st).sessions) ∧
    (st.currentSessionId = some id → (handleDeleteSession id st).currentSessionId = none) ∧
    (st.currentSessionId ≠ some id →
      (handleDeleteSession id st).currentSessionId = st.currentSessionId) := by
  refine ⟨?_, ?_, ?_, ?_⟩
  · intro s hs
    simp only [handleDeleteSession, List.mem_filter, Bool.not_eq_true', beq_eq_false_iff_ne] at hs
    exact hs.2
  · intro s hs hne
    simp only [handleDeleteSession, List.mem_filter, Bool.not_eq_true', beq_eq_false_iff_ne]
    exact ⟨hs, hne⟩
  · intro h
    simp [handleDeleteSession, h]
  · intro h
    simp only [handleDeleteSession]
    rw [if_neg]
    simp only [beq_iff_eq]
    exact h

/-- Claim C3 witness: deleting the active session "a" from a concrete
two-session state nulls the current-session pointer. -/
theorem C3_delete_session_witness :
    (handleDeleteSession "a" (mkState [sampleSessionA, sampleSessionB] (some "a") "")).currentSessionId
      = none :=
  (C3_delete_session "a" (mkState [sampleSessionA, sampleSessionB] (some "a") "")).2.2.1 rfl

/-- Claim C4 counterexample: the code never checks the freshly generated
identifier against the collection, so when the id oracle collides with an
existing session id the identifier of the new session is NOT distinct from every
existing identifier: creating a chat with generated id "a" over a collection
already containing `sampleSessionA` (whose id is "a") yields a current/new
session id equal to the id of that existing session. -/
theorem C4_counterexample :
    sampleSessionA ∈ (mkState [sampleSessionA] none "").sessions ∧
    (handleNewChat "a" 0 (mkState [sampleSessionA] none "")).sessions.head?
      = some (newChatSession "a" 0) ∧
    (newChatSession "a" 0).id = sampleSessionA.id := by
  refine ⟨?_, rfl, rfl⟩
  decide

/-- Claim C4 (amended): `handleNewChat` always prepends a session whose
message list is empty and whose identifier is the output of the id generator; that
identifier is distinct from every session already in the collection whenever
the generated value is not already among the identifiers of the collection (the
code performs no collision check, so freshness of the generator is an
assumption, not a guarantee). -/
theorem C4_new_chat_amended (newId : String) (now : Nat) (st : AppState)
    (hfresh : newId ∉ st.sessions.map ChatSession.id) :
    (handleNewChat newId now st).sessions = newChatSession newId now :: st.sessions ∧
    (newChatSession newId now).messages = [] ∧
    (handleNewChat newId now st).currentSessionId = some (newChatSession newId now).id ∧
    ∀ s ∈ st.sessions, s.id ≠ (newChatSession newId now).id := by
  refine ⟨rfl, rfl, rfl, ?_⟩
  intro s hs heq
  exact hfresh (List.mem_map.2 ⟨s, hs, heq⟩)

/-- Claim C4 witness: with the fresh generated id "c4new" over a collection
containing only `sampleSessionA`, the identifier of the existing session differs
from the identifier of the new session. -/
theorem C4_new_chat_witness :
    sampleSessionA.id ≠ (newChatSession "c4new" 5).id :=
  (C4_new_chat_amended "c4new" 5 (mkState [sampleSessionA] none "") (by decide)).2.2.2
    sampleSessionA (by decide)

/-- Claim C5: the image-generation heuristic classifies "draw a cat" and
"generate image of a sunset" as generation requests and "hello there" as not
one; in general it returns true exactly when the lower-cased input starts
with "generate image", "create image", "draw" or "imagine", or contains the
substring "make an image of". -/
theorem C5_image_heuristic :
    isImageGenerationRequest "draw a cat" = true ∧
    isImageGenerationRequest "generate image of a sunset" = true ∧
    isImageGenerationRequest "hello there" = false ∧
    ∀ s : String, isImageGenerationRequest s = true ↔
      (jsStartsWith (jsToLowerCase s) "generate image" = true ∨
       jsStartsWith (jsToLowerCase s) "create image" = true ∨
       jsStartsWith (jsToLowerCase s) "draw" = true ∨
       jsStartsWith (jsToLowerCase s) "imagine" = true ∨
       jsIncludes (jsToLowerCase s) "make an image of" = true) := by
  refine ⟨by decide, by decide, by decide, ?_⟩
  intro s
  simp [isImageGenerationRequest, Bool.or_eq_true, or_assoc]

/-- Claim C6 counterexample: when the remote image-generation call throws,
`generateImageWithGemini` does NOT return a base64 data URI or null: its catch
block re-throws (`throw error`, gemini.ts line 118), so the exception
propagates to the caller. -/
theorem C6_counterexample :
    ¬ ∃ o : Option String,
        generateImageWithGemini "a cat" (fun _ => Except.error ()) = Except.ok o := by
  intro ⟨o, h⟩
  simp [generateImageWithGemini] at h

/-- Claim C6 (amended): for every prompt, `generateImageWithGemini` returns a
base64 data URI when the remote call succeeds with at least one image, null
when it succeeds with no images, and re-propagates the exception to its caller
when the remote call throws (the catch block of the send flow then converts it to
the hard-coded error message). -/
theorem C6_generate_image_amended (prompt : String)
    (remote : String → Except Unit GenerateImagesResponse) :
    generateImageWithGemini prompt remote =
      match remote prompt with
      | Except.error e => Except.error e
      | Except.ok response =>
          match response.generatedImages with
          | some (first :: _) =>
              Except.ok (some ("data:image/jpeg;base64," ++ first.image.imageBytes))
          | _ => Except.ok none := by
  unfold generateImageWithGemini
  rfl

/-- Claim C8 counterexample: pin toggling twice does not always leave the
session unpinned: starting from a session that is already pinned
(`isPinned = some true`), two toggles return it to pinned, so its pinned flag
is truthy, not falsy. -/
theorem C8_counterexample :
    (handlePinSession "a"
        (handlePinSession "a"
          (mkState [{ id := "a", title := "alpha", messages := [], createdAt := 1,
                      updatedAt := 1, isPinned := some true }] none ""))).sessions.map
      (fun s => boolTruthy s.isPinned) = [true] := by
  decide

/-- Claim C8 (amended): applying the pin toggle twice to the same identifier
preserves the truthiness of the pinned flag of every session; in particular a
session whose flag was falsy before the two calls (absent or false, i.e.
unpinned) is unpinned afterwards. -/
theorem C8_double_pin_truthiness (id : String) (st : AppState) :
    (handlePinSession id (handlePinSession id st)).sessions.map
        (fun s => boolTruthy s.isPinned) =
      st.sessions.map (fun s => boolTruthy s.isPinned) := by
  simp only [handlePinSession, List.map_map]
  apply List.map_congr_left
  intro s _
  by_cases h : s.id = id
  · simp [pinUpdate, h, Function.comp, boolTruthy]
  · simp [pinUpdate, h, Function.comp]

-- Helper: the composition of the catch-block updater with the user-message
-- updater appends exactly the pair `[userMsg, errMsg]` to the target session
-- (and retitles it on a first message), leaving every other session alone.
theorem appendErrorMsg_appendUserMsg (target textToSend : String) (u e : ChatMessage)
    (now : Nat) (ss : List ChatSession) :
    appendErrorMsg target e (appendUserMsg target textToSend u now ss) =
      ss.map (fun s =>
        if s.id == target then
          { s with
            title := if s.messages.length == 0 then
                       (if jsSubstring0 textToSend 30 == "" then "Image Analysis"
                        else jsSubstring0 textToSend 30)
                     else s.title,
            messages := s.messages ++ [u, e],
            updatedAt := now }
        else s) := by
  simp only [appendErrorMsg, appendUserMsg, List.map_map]
  apply List.map_congr_left
  intro s _
  by_cases h : s.id = target
  · simp [Function.comp, sendErrorUpdate, sendUserUpdate, h]
  · simp [Function.comp, sendErrorUpdate, sendUserUpdate, h]

/-- Claim C2: whenever `handleSend` runs its main path (a session is current
and the guard does not fire), the typing flag is false once the handler
completes, whatever the gateway calls do; and if the invoked gateway call
throws (the image path re-raises its remote error), the resulting sessions
are exactly the input sessions with, on the target session only, the user
message followed by a single model-role message carrying the hard-coded error
text — exactly one model message is appended, and no other session changes. -/
theorem C2_send_throw_appends_one_error (overrideText : Option String)
    (isImageGenMode : Bool) (g1 g2 g3 : String) (now : Nat)
    (imagesRemote : String → Except Unit GenerateImagesResponse)
    (chatRemote : List ChatMessage → String → Option String → Except Unit (Option String))
    (st : AppState) (target : String)
    (hcur : st.currentSessionId = some target)
    (hguard : ((jsTrim (jsOrStr overrideText st.input) == "") &&
        !(strTruthy st.selectedImage)) = false) :
    (handleSend overrideText isImageGenMode g1 g2 g3 now imagesRemote chatRemote st).isTyping
      = false ∧
    ((isImageGenMode || isImageGenerationRequest (jsOrStr overrideText st.input)) = true →
      imagesRemote (jsOrStr overrideText st.input) = Except.error () →
      (userMessage g2 (jsOrStr overrideText st.input) st.selectedImage now).role
          = MessageRole.USER ∧
      (errorMessage g3 now).role = MessageRole.MODEL ∧
      (errorMessage g3 now).text = "My neural link was disrupted. Please try again. ⚠️" ∧
      (handleSend overrideText isImageGenMode g1 g2 g3 now imagesRemote chatRemote st).sessions =
        st.sessions.map (fun s =>
          if s.id == target then
            { s with
              title := if s.messages.length == 0 then
                         (if jsSubstring0 (jsOrStr overrideText st.input) 30 == ""
                          then "Image Analysis"
                          else jsSubstring0 (jsOrStr overrideText st.input) 30)
                       else s.title,
              messages := s.messages ++
                [userMessage g2 (jsOrStr overrideText st.input) st.selectedImage now,
                 errorMessage g3 now],
              updatedAt := now }
          else s)) := by
  cases st with
  | mk ss cur inp sel typ guide =>
    dsimp only at hcur hguard ⊢
    subst hcur
    constructor
    · simp [handleSend, hguard]
    · intro himg herr
      refine ⟨rfl, rfl, rfl, ?_⟩
      simp only [handleSend, hguard, himg, generateImageWithGemini, herr]
      simp [appendErrorMsg_appendUserMsg]

/-- Claim C2 witness: a concrete send of "draw a cat" (an image request) whose
remote image call throws leaves the typing flag false. -/
theorem C2_send_throw_witness :
    (handleSend none false "g1" "g2" "g3" 7 (fun _ => Except.error ())
        (fun _ _ _ => Except.ok none)
        (mkState [sampleSessionA] (some "a") "draw a cat")).isTyping = false :=
  (C2_send_throw_appends_one_error none false "g1" "g2" "g3" 7 (fun _ => Except.error ())
      (fun _ _ _ => Except.ok none) (mkState [sampleSessionA] (some "a") "draw a cat") "a"
      rfl (by decide)).1

-- Helper for the pin frame property: when no session matches, `pinUpdate`
-- leaves the whole collection untouched.
theorem pinUpdate_map_id (id : String) (ss : List ChatSession)
    (h : ∀ s ∈ ss, s.id ≠ id) : ss.map (pinUpdate id) = ss := by
  induction ss with
  | nil => rfl
  | cons a as ih =>
      have ha : (a.id == id) = false := by
        simp only [beq_eq_false_iff_ne, ne_eq]
        exact h a (List.mem_cons_self a as)
      simp only [List.map_cons, pinUpdate, ha, Bool.false_eq_true, if_false,
        List.cons.injEq, true_and]
      exact ih (fun s hs => h s (List.mem_cons_of_mem a hs))

/-- Claim C10: `handlePinSession id` changes at most the pinned flag of the
sessions with that identifier: positionally, every session keeps its id,
title, messages and both timestamps, every session whose id differs from the
argument is completely unchanged, and if no session carries the identifier
the collection is unchanged. -/
theorem C10_pin_frame (id : String) (st : AppState) :
    ((∀ s ∈ st.sessions, s.id ≠ id) → (handlePinSession id st).sessions = st.sessions) ∧
    List.Forall₂ (fun s s2 =>
        s2.id = s.id ∧ s2.title = s.title ∧ s2.messages = s.messages ∧
        s2.createdAt = s.createdAt ∧ s2.updatedAt = s.updatedAt ∧
        (s.id ≠ id → s2 = s))
      st.sessions (handlePinSession id st).sessions := by
  constructor
  · intro h
    exact pinUpdate_map_id id st.sessions h
  · show List.Forall₂ _ st.sessions (st.sessions.map (pinUpdate id))
    rw [List.forall₂_map_right_iff]
    rw [List.forall₂_same]
    intro s _
    by_cases h : s.id = id
    · have hb : (s.id == id) = true := by simp [h]
      simp [pinUpdate, hb, h]
    · have hb : (s.id == id) = false := by
        simp only [beq_eq_false_iff_ne, ne_eq]; exact h
      simp [pinUpdate, hb]

/-- Claim C10 witness: pinning an identifier that no session carries leaves a
concrete two-session collection unchanged. -/
theorem C10_pin_frame_witness :
    (handlePinSession "zzz" (mkState [sampleSessionA, sampleSessionB] none "")).sessions
      = (mkState [sampleSessionA, sampleSessionB] none "").sessions :=
  (C10_pin_frame "zzz" (mkState [sampleSessionA, sampleSessionB] none "")).1 (by decide)

-- Helper: what a single comparator fact says about pin flags and timestamps.
theorem sessionLe_spec {a b : ChatSession} (h : sessionLe a b) :
    (boolTruthy b.isPinned = true → boolTruthy a.isPinned = true) ∧
    (boolTruthy a.isPinned = boolTruthy b.isPinned → b.updatedAt ≤ a.updatedAt) := by
  unfold sessionLe sessionCompareLe at h
  cases hpa : boolTruthy a.isPinned <;> cases hpb : boolTruthy b.isPinned <;>
    simp [hpa, hpb] at h ⊢ <;> omega

/-- Claim C9: every session in the displayed sidebar list comes from the
input collection and has a title containing the search term
case-insensitively; pinned sessions (truthy flag) all appear before unpinned
ones; and any two displayed sessions with the same pinned status are in
descending `updatedAt` order. -/
theorem C9_sidebar_filter_sort (sessions : List ChatSession) (searchTerm : String) :
    (∀ s ∈ filteredSessions sessions searchTerm,
        s ∈ sessions ∧
        jsIncludes (jsToLowerCase s.title) (jsToLowerCase searchTerm) = true) ∧
    List.Pairwise (fun a b =>
        (boolTruthy b.isPinned = true → boolTruthy a.isPinned = true) ∧
        (boolTruthy a.isPinned = boolTruthy b.isPinned → b.updatedAt ≤ a.updatedAt))
      (filteredSessions sessions searchTerm) := by
  constructor
  · intro s hs
    have hmem : s ∈ sessions.filter
        (fun s => jsIncludes (jsToLowerCase s.title) (jsToLowerCase searchTerm)) :=
      (List.perm_insertionSort sessionLe _).mem_iff.1 hs
    rw [List.mem_filter] at hmem
    exact hmem
  · exact List.Pairwise.imp (fun h => sessionLe_spec h)
      (List.sorted_insertionSort sessionLe _)

/-- Claim C9 witness: in a concrete search, the displayed session comes from
the collection and its title contains the term. -/
theorem C9_sidebar_filter_sort_witness :
    sampleSessionA ∈ [sampleSessionA] ∧
    jsIncludes (jsToLowerCase sampleSessionA.title) (jsToLowerCase "alp") = true :=
  (C9_sidebar_filter_sort [sampleSessionA] "alp").1 sampleSessionA (by decide)

-- Helpers for the append-only invariant: each per-session updater used by the
-- send flow preserves the session id and only ever appends to its messages.
theorem sessionKeep_map {f : ChatSession → ChatSession}
    (hf : ∀ t : ChatSession, (f t).id = t.id ∧ t.messages <+: (f t).messages)
    {ss : List ChatSession} {s : ChatSession} (hs : s ∈ ss) :
    ∃ s2 ∈ ss.map f, s2.id = s.id ∧ s.messages <+: s2.messages :=
  ⟨f s, List.mem_map_of_mem f hs, (hf s).1, (hf s).2⟩

theorem sessionKeep_chain {f g : ChatSession → ChatSession}
    (hf : ∀ t : ChatSession, (f t).id = t.id ∧ t.messages <+: (f t).messages)
    (hg : ∀ t : ChatSession, (g t).id = t.id ∧ t.messages <+: (g t).messages)
    {ss : List ChatSession} {s : ChatSession} (hs : s ∈ ss) :
    ∃ s2 ∈ (ss.map f).map g, s2.id = s.id ∧ s.messages <+: s2.messages := by
  obtain ⟨m, hm, hid, hpre⟩ := sessionKeep_map hf hs
  obtain ⟨s2, hs2, hid2, hpre2⟩ := sessionKeep_map hg hm
  exact ⟨s2, hs2, hid2.trans hid, hpre.trans hpre2⟩

theorem sendUserUpdate_keep (target textToSend : String) (u : ChatMessage) (now : Nat) :
    ∀ t : ChatSession, (sendUserUpdate target textToSend u now t).id = t.id ∧
      t.messages <+: (sendUserUpdate target textToSend u now t).messages := by
  intro t
  unfold sendUserUpdate
  by_cases h : t.id = target
  · have hb : (t.id == target) = true := by simp [h]
    rw [if_pos hb]
    exact ⟨rfl, ⟨[u], rfl⟩⟩
  · have hb : ¬((t.id == target) = true) := by simp [h]
    rw [if_neg hb]
    exact ⟨rfl, ⟨[], by simp⟩⟩

theorem sendBotUpdate_keep (target : String) (b : ChatMessage) (now : Nat) :
    ∀ t : ChatSession, (sendBotUpdate target b now t).id = t.id ∧
      t.messages <+: (sendBotUpdate target b now t).messages := by
  intro t
  unfold sendBotUpdate
  by_cases h : t.id = target
  · have hb : (t.id == target) = true := by simp [h]
    rw [if_pos hb]
    exact ⟨rfl, ⟨[b], rfl⟩⟩
  · have hb : ¬((t.id == target) = true) := by simp [h]
    rw [if_neg hb]
    exact ⟨rfl, ⟨[], by simp⟩⟩

theorem sendErrorUpdate_keep (target : String) (e : ChatMessage) :
    ∀ t : ChatSession, (sendErrorUpdate target e t).id = t.id ∧
      t.messages <+: (sendErrorUpdate target e t).messages := by
  intro t
  unfold sendErrorUpdate
  by_cases h : t.id = target
  · have hb : (t.id == target) = true := by simp [h]
    rw [if_pos hb]
    exact ⟨rfl, ⟨[e], rfl⟩⟩
  · have hb : ¬((t.id == target) = true) := by simp [h]
    rw [if_neg hb]
    exact ⟨rfl, ⟨[], by simp⟩⟩

/-- Claim C7: the session-store and send-flow operations only ever append to a
message list of a session.  Creating a chat keeps every existing session;
deleting keeps every surviving session unchanged; pinning keeps every
id and message list of every session (positionally); and after any `handleSend` run,
every input session has a same-id session in the output whose message list
extends the input one (its old messages are a prefix, never removed,
reordered or edited). -/
theorem C7_messages_only_appended (newId : String) (now : Nat) (did pid : String)
    (st : AppState) (overrideText : Option String) (isImageGenMode : Bool)
    (g1 g2 g3 : String) (now2 : Nat)
    (imagesRemote : String → Except Unit GenerateImagesResponse)
    (chatRemote : List ChatMessage → String → Option String → Except Unit (Option String))
    (st2 : AppState) :
    (∀ s ∈ st.sessions, s ∈ (handleNewChat newId now st).sessions) ∧
    (∀ s ∈ (handleDeleteSession did st).sessions, s ∈ st.sessions) ∧
    List.Forall₂ (fun s s2 => s2.id = s.id ∧ s.messages <+: s2.messages)
      st.sessions (handlePinSession pid st).sessions ∧
    (∀ s ∈ st2.sessions,
      ∃ s2 ∈ (handleSend overrideText isImageGenMode g1 g2 g3 now2 imagesRemote
          chatRemote st2).sessions,
        s2.id = s.id ∧ s.messages <+: s2.messages) := by
  refine ⟨?_, ?_, ?_, ?_⟩
  · intro s hs
    exact List.mem_cons_of_mem _ hs
  · intro s hs
    exact List.mem_of_mem_filter hs
  · show List.Forall₂ _ st.sessions (st.sessions.map (pinUpdate pid))
    rw [List.forall₂_map_right_iff, List.forall₂_same]
    intro s _
    unfold pinUpdate
    by_cases h : s.id = pid
    · have hb : (s.id == pid) = true := by simp [h]
      rw [if_pos hb]
      exact ⟨rfl, ⟨[], by simp⟩⟩
    · have hb : ¬((s.id == pid) = true) := by simp [h]
      rw [if_neg hb]
      exact ⟨rfl, ⟨[], by simp⟩⟩
  · intro s hs
    cases st2 with
    | mk ss cur inp sel typ guide =>
      dsimp only at hs ⊢
      cases cur with
      | none =>
          exact ⟨s, List.mem_cons_of_mem _ hs, rfl, ⟨[], by simp⟩⟩
      | some target =>
          by_cases hg :
              ((jsTrim (jsOrStr overrideText inp) == "") && !(strTruthy sel)) = true
          · have hres : handleSend overrideText isImageGenMode g1 g2 g3 now2 imagesRemote
                chatRemote (AppState.mk ss (some target) inp sel typ guide) =
                AppState.mk ss (some target) inp sel typ guide := by
              simp [handleSend, hg]
            rw [hres]
            exact ⟨s, hs, rfl, ⟨[], by simp⟩⟩
          · have hg2 :
                ((jsTrim (jsOrStr overrideText inp) == "") && !(strTruthy sel)) = false := by
              revert hg
              cases ((jsTrim (jsOrStr overrideText inp) == "") && !(strTruthy sel)) <;> simp
            simp only [handleSend, hg2, Bool.false_eq_true, if_false, appendBotMsg,
              appendErrorMsg, appendUserMsg]
            split
            · exact sessionKeep_chain (sendUserUpdate_keep _ _ _ _)
                (sendBotUpdate_keep _ _ _) hs
            · exact sessionKeep_chain (sendUserUpdate_keep _ _ _ _)
                (sendErrorUpdate_keep _ _) hs

/-- Claim C7 witness: an existing concrete session survives a new-chat
creation. -/
theorem C7_messages_only_appended_witness :
    sampleSessionA ∈ (handleNewChat "x" 9 (mkState [sampleSessionA] none "")).sessions :=
  (C7_messages_only_appended "x" 9 "d" "p" (mkState [sampleSessionA] none "") none false
      "g1" "g2" "g3" 0 (fun _ => Except.ok ⟨none⟩) (fun _ _ _ => Except.ok none)
      (mkState [sampleSessionA] none "")).1 sampleSessionA (by decide)

end XenoAi
